import Mathlib

/-!
Verification development for the koku IAM serializers
(`koku/api/iam/serializers.py`) and the migration
`koku/api/migrations/0010_auto_20180523_1540.py`.

The Python code is shallowly embedded: pure helpers become Lean functions,
ORM writes become explicit state passing over a `Db` record together with an
event trace, and fallible code returns `Except`.  System-provided data
(`locale.locale_alias.values()`, the compiled currency-symbol list,
`pytz.all_timezones`, the `settings.KOKU_DEFAULT_*` values and the entropy
source behind `secrets.choice`) is threaded through a `Ctx` record, since it
is environment configuration rather than repository code.
-/

namespace Koku

/-- A Python `str` object as it matters for the `is`/`is not` comparisons in
`UserPreferenceSerializer._generic_validation`: its character content plus
whether the object is the CPython-interned object for that content.  String
literals appearing in the source are interned; a string of equal content
built at run time (e.g. arriving in a deserialized request payload) is a
distinct object, so `x is lit` holds iff `x` is the interned object whose
content equals the literal. -/
structure PyStr where
  val : String
  interned : Bool
deriving DecidableEq, Repr

/-- Python `x is lit` where `lit` is a string literal of the source and `x`
is `data.get('name')` (absent key gives `None`, never identical to a str). -/
def pyIsLit (x : Option PyStr) (lit : String) : Bool :=
  match x with
  | some s => s.interned && s.val == lit
  | none => false

/-- Errors surfaced by the embedded code: `rest_framework.serializers.
ValidationError` (carrying the field and the offending preference value of
the f-string message), Python `TypeError`, and a database unique-constraint
`IntegrityError`. -/
inductive Err where
  | validationError (field : String) (pref : Option String)
  | typeError
  | integrityError
deriving DecidableEq, Repr

/-- The serializer `data` dict as `UserPreferenceSerializer.validate`
reads it: the `name` entry (a string object, possibly absent) and the
`preference` entry (a JSON object modelled as an association list,
possibly absent). -/
structure PrefData where
  name : Option PyStr
  preference : Option (List (String × String))
deriving DecidableEq, Repr

/-- `dict.get(key)` on the association list under `preference`. -/
def dictGet (d : List (String × String)) (key : String) : Option String :=
  match d.find? (fun kv => kv.1 == key) with
  | some kv => some kv.2
  | none => none

/-- `pref not in iterable` for `pref = data.get('preference', dict).get(field)`:
`None` is a member of none of the three system iterables (they hold strings). -/
def prefNotIn (iterable : List String) (pref : Option String) : Bool :=
  match pref with
  | some v => !(iterable.contains v)
  | none => true

/-- `UserPreferenceSerializer._generic_validation(data, field, iterable)`.
Line 237 compares `data.get('name') is not field` — object identity, not
equality — and returns early when the identity test fails.  Line 240 is
`data.get('preference', dict).get(field)`: when the `preference` key is
absent the default is the class `dict` itself, and `dict.get(field)` raises
`TypeError`; when it is present the field is looked up in it. -/
def genericValidation (data : PrefData) (field : String) (iterable : List String) :
    Except Err Unit :=
  if !(pyIsLit data.name field) then Except.ok ()
  else
    match data.preference with
    | none => Except.error Err.typeError
    | some prefs =>
        let pref := dictGet prefs field
        if prefNotIn iterable pref then Except.error (Err.validationError field pref)
        else Except.ok ()

/-- The system-provided enumerations and settings the serializers consult. -/
structure Ctx where
  locales : List String
  currencies : List String
  timezones : List String
  defaultCurrency : String
  defaultTimezone : String
  defaultLocale : String
  pick : Nat → Nat
deriving Inhabited

/-- `UserPreferenceSerializer._validate_locale`. -/
def validateLocale (ctx : Ctx) (data : PrefData) : Except Err Unit :=
  genericValidation data "locale" ctx.locales

/-- `UserPreferenceSerializer._validate_currency`. -/
def validateCurrency (ctx : Ctx) (data : PrefData) : Except Err Unit :=
  genericValidation data "currency" ctx.currencies

/-- `UserPreferenceSerializer._validate_timezone`. -/
def validateTimezone (ctx : Ctx) (data : PrefData) : Except Err Unit :=
  genericValidation data "timezone" ctx.timezones

/-- `UserPreferenceSerializer.validate(data)`: run the three field
validators in source order and return `data`. -/
def upsValidate (ctx : Ctx) (data : PrefData) : Except Err PrefData := do
  validateLocale ctx data
  validateCurrency ctx data
  validateTimezone ctx data
  return data

/-- A word character of a Python regex `\w` over the inputs considered here:
ASCII letters, digits, or underscore.  (Python's `re` additionally counts
non-ASCII letters as word characters; every input in this development is
ASCII, where the two notions agree.) -/
def pyIsWordChar (c : Char) : Bool :=
  c.isAlphanum || c == '_'

/-- Whether a character matches the character class `[\W_]` of
`_create_schema_name`: a non-word character or an underscore. -/
def inClassNonWordOrUnderscore (c : Char) : Bool :=
  !(pyIsWordChar c) || c == '_'

/-- `_create_schema_name(customer_name)`:
`re.compile(r'[\W_]+').sub('', customer_name).lower()`.  Substituting the
empty string for every maximal run of `[\W_]` characters deletes exactly the
characters matching the class; `.lower()` then lowercases each character. -/
def createSchemaName (customerName : String) : String :=
  String.mk ((customerName.data.filter
    (fun c => !(inClassNonWordOrUnderscore c))).map Char.toLower)

/-- Stated from the spec's words, for comparison with `createSchemaName`:
the name with all non-word characters stripped, then lowercased. -/
def specSchemaName (customerName : String) : String :=
  String.mk ((customerName.data.filter (fun c => pyIsWordChar c)).map Char.toLower)

/-- The character sequence `choices` of `_gen_temp_password`:
`'!@#$%^&*()_+' + string.digits + string.ascii_uppercase +
string.ascii_lowercase`. -/
def passwordChoices : String :=
  "!@#$%^&*()_+" ++ "0123456789" ++ "ABCDEFGHIJKLMNOPQRSTUVWXYZ"
    ++ "abcdefghijklmnopqrstuvwxyz"

/-- `_gen_temp_password()`: join 10 characters, each one
`secrets.choice(choices)`.  The entropy source is modelled by `pick`; taking
the chosen index modulo the length reflects that `secrets.choice` always
returns an element of the sequence. -/
def genTempPassword (pick : Nat → Nat) : String :=
  String.mk ((List.range 10).map (fun i =>
    passwordChoices.data.getD (pick i % passwordChoices.data.length) '!'))

/-- A row of the `User` model as these serializers touch it. -/
structure User where
  id : Nat
  username : String
  email : String
  password : String
  uuid : String
deriving DecidableEq, Repr

/-- A row of the `UserPreference` model as `_create_default_preferences`
writes it. -/
structure PrefRow where
  userId : Nat
  name : String
  value : String
  description : String
deriving DecidableEq, Repr

/-- A row of the `ResetToken` model: a token tied to a user. -/
structure TokenRow where
  userId : Nat
  token : String
deriving DecidableEq, Repr

/-- A row of the `Customer` model as `CustomerSerializer.create` writes it. -/
structure Customer where
  id : Nat
  name : String
  schemaName : String
  ownerId : Nat
deriving DecidableEq, Repr

/-- The ORM state: the tables these serializers write, a primary-key
counter, and a counter feeding uuid generation. -/
structure Db where
  users : List User
  prefs : List PrefRow
  tokens : List TokenRow
  customers : List Customer
  memberships : List (Nat × Nat)
  nextId : Nat
  nextUuid : Nat
deriving DecidableEq, Repr

/-- The empty database. -/
def emptyDb : Db :=
  { users := [], prefs := [], tokens := [], customers := [], memberships := []
    nextId := 0, nextUuid := 0 }

/-- Observable events of a run, in order: row creations and the call to the
email collaborator `new_user_login_email(username, email, str(user.uuid),
str(reset_token.token))`. -/
inductive Event where
  | userCreated (username email : String)
  | prefCreated (name value : String)
  | tokenCreated (username token : String)
  | emailSent (username email uuid token : String)
  | customerCreated (name schemaName : String)
  | memberAdded (customerName username : String)
deriving DecidableEq, Repr

/-- Recognizes the `new_user_login_email` call in a trace. -/
def isEmailEvent : Event → Bool
  | Event.emailSent _ _ _ _ => true
  | _ => false

/-- A fresh uuid4 value, drawn from the state counter. -/
def freshUuid (n : Nat) : String :=
  "uuid-" ++ toString n

/-- One iteration of the loop in `_create_default_preferences`: build the
serializer data (the `name` entry is a dict-literal key of the source, hence
an interned string), run `UserPreferenceSerializer.validate` via
`is_valid(raise_exception=True)`, and on success `save()` the preference
row with description `'default preference'`. -/
def createOnePreference (ctx : Ctx) (user : User) (name value : String)
    (db : Db) (tr : List Event) : Except Err (Db × List Event) :=
  match upsValidate ctx
      { name := some { val := name, interned := true }
        preference := some [(name, value)] } with
  | Except.error e => Except.error e
  | Except.ok _ =>
      Except.ok
        ({ db with prefs := db.prefs ++
            [{ userId := user.id, name := name, value := value
               description := "default preference" }] },
         tr ++ [Event.prefCreated name value])

/-- `_create_default_preferences(user)`: the loop over the three defaults,
in source order currency, timezone, locale. -/
def createDefaultPreferences (ctx : Ctx) (user : User) (db : Db)
    (tr : List Event) : Except Err (Db × List Event) :=
  match createOnePreference ctx user "currency" ctx.defaultCurrency db tr with
  | Except.error e => Except.error e
  | Except.ok (db1, tr1) =>
      match createOnePreference ctx user "timezone" ctx.defaultTimezone db1 tr1 with
      | Except.error e => Except.error e
      | Except.ok (db2, tr2) =>
          createOnePreference ctx user "locale" ctx.defaultLocale db2 tr2

/-- The password selection at the head of `_create_user`: `if password:`
— both `None` and the empty string are falsy, triggering
`_gen_temp_password()`; any other supplied password is used as given. -/
def pickPassword (ctx : Ctx) (password : Option String) : String :=
  match password with
  | some p => if p == "" then genTempPassword ctx.pick else p
  | none => genTempPassword ctx.pick

/-- `_create_user(username, email, password)`: pick the password, create
the user row (`User.objects.create_user`; the username column is unique,
so a duplicate raises `IntegrityError`), create the default preferences,
save a `ResetToken`, and call `new_user_login_email(username, email,
str(user.uuid), str(reset_token.token))`. -/
def createUser (ctx : Ctx) (username email : String) (password : Option String)
    (db : Db) (tr : List Event) : Except Err (User × Db × List Event) :=
  let userPass := pickPassword ctx password
  if db.users.any (fun u => u.username == username) then
    Except.error Err.integrityError
  else
    let user : User :=
      { id := db.nextId, username := username, email := email
        password := userPass, uuid := freshUuid db.nextUuid }
    let db1 : Db :=
      { db with users := db.users ++ [user], nextId := db.nextId + 1
                nextUuid := db.nextUuid + 1 }
    let tr1 := tr ++ [Event.userCreated username email]
    match createDefaultPreferences ctx user db1 tr1 with
    | Except.error e => Except.error e
    | Except.ok (db2, tr2) =>
        let token := freshUuid db2.nextUuid
        let db3 : Db :=
          { db2 with tokens := db2.tokens ++ [{ userId := user.id, token := token }]
                     nextUuid := db2.nextUuid + 1 }
        let tr3 := tr2 ++ [Event.tokenCreated username token]
        Except.ok (user, db3, tr3 ++ [Event.emailSent username email user.uuid token])

/-- `UserSerializer.create(validated_data)` under `@transaction.atomic`:
run `_create_user`; on any error the transaction rolls back every row
written inside it, leaving the database as it was (the trace of calls to
outside collaborators is not part of the database and is returned as it
stood at entry only because, in this model, no failure can occur after the
email call). -/
def userSerializerCreate (ctx : Ctx) (username email : String)
    (password : Option String) (db : Db) (tr : List Event) :
    Except Err User × Db × List Event :=
  match createUser ctx username email password db tr with
  | Except.ok (u, db', tr') => (Except.ok u, db', tr')
  | Except.error e => (Except.error e, db, tr)

/-- The owner part of `CustomerSerializer`'s validated data. -/
structure OwnerData where
  username : String
  email : String
  password : Option String
deriving DecidableEq, Repr

/-- `CustomerSerializer`'s validated data: the customer name and the nested
owner data. -/
structure CustomerData where
  name : String
  owner : OwnerData
deriving DecidableEq, Repr

/-- The body of `CustomerSerializer.create(validated_data)`: pop the owner
data, `_create_user` the owner, derive `schema_name` with
`_create_schema_name(name)`, `Customer.objects.create(...)`, and add the
owner to `customer.user_set`. -/
def customerCreateBody (ctx : Ctx) (data : CustomerData) (db : Db)
    (tr : List Event) : Except Err (Customer × Db × List Event) :=
  match createUser ctx data.owner.username data.owner.email data.owner.password db tr with
  | Except.error e => Except.error e
  | Except.ok (owner, db1, tr1) =>
      let schemaName := createSchemaName data.name
      let customer : Customer :=
        { id := db1.nextId, name := data.name, schemaName := schemaName
          ownerId := owner.id }
      let db2 : Db :=
        { db1 with customers := db1.customers ++ [customer], nextId := db1.nextId + 1 }
      let tr2 := tr1 ++ [Event.customerCreated data.name schemaName]
      let db3 : Db :=
        { db2 with memberships := db2.memberships ++ [(customer.id, owner.id)] }
      Except.ok (customer, db3, tr2 ++ [Event.memberAdded data.name data.owner.username])

/-- `CustomerSerializer.create` under `@transaction.atomic`: on any error
the transaction rolls the database back to its entry state. -/
def customerSerializerCreate (ctx : Ctx) (data : CustomerData) (db : Db)
    (tr : List Event) : Except Err Customer × Db × List Event :=
  match customerCreateBody ctx data db tr with
  | Except.ok (c, db', tr') => (Except.ok c, db', tr')
  | Except.error e => (Except.error e, db, tr)

/-- The serializer-level validation of the `email` field declared on
`UserSerializer` (and run on the nested owner data by
`CustomerSerializer`): `EmailField`/`validate_email` syntax validation —
the framework's syntax predicate is the parameter `isValidEmail` — followed
by `UniqueValidator(queryset=User.objects.all())`. -/
def validateUserEmailField (isValidEmail : String → Bool) (d : OwnerData)
    (db : Db) : Except Err Unit :=
  if !(isValidEmail d.email) then
    Except.error (Err.validationError "email" (some d.email))
  else if db.users.any (fun u => u.email == d.email) then
    Except.error (Err.validationError "email" (some d.email))
  else Except.ok ()

/-- A user-creation request through `UserSerializer`: `is_valid` (the email
field validators) then `save`, i.e. `create`. -/
def userSerializerSave (isValidEmail : String → Bool) (ctx : Ctx)
    (d : OwnerData) (db : Db) (tr : List Event) :
    Except Err User × Db × List Event :=
  match validateUserEmailField isValidEmail d db with
  | Except.error e => (Except.error e, db, tr)
  | Except.ok _ => userSerializerCreate ctx d.username d.email d.password db tr

/-- A customer-creation request through `CustomerSerializer`: `is_valid`
runs the nested `UserSerializer` field validators on the owner data, then
`save` runs `create`. -/
def customerSerializerSave (isValidEmail : String → Bool) (ctx : Ctx)
    (cd : CustomerData) (db : Db) (tr : List Event) :
    Except Err Customer × Db × List Event :=
  match validateUserEmailField isValidEmail cd.owner db with
  | Except.error e => (Except.error e, db, tr)
  | Except.ok _ => customerSerializerCreate ctx cd db tr

/-- The user-creating operations reachable through these serializers. -/
inductive Op where
  | createUserOp (d : OwnerData)
  | createCustomerOp (cd : CustomerData)
deriving DecidableEq, Repr

/-- Run one request against the database. -/
def runOp (isValidEmail : String → Bool) (ctx : Ctx) (db : Db) (op : Op) : Db :=
  match op with
  | Op.createUserOp d => (userSerializerSave isValidEmail ctx d db []).2.1
  | Op.createCustomerOp cd => (customerSerializerSave isValidEmail ctx cd db []).2.1

/-- Run a sequence of requests. -/
def runOps (isValidEmail : String → Bool) (ctx : Ctx) (db : Db)
    (ops : List Op) : Db :=
  ops.foldl (runOp isValidEmail ctx) db

/-- All stored user emails are syntactically valid and pairwise distinct. -/
def emailsOk (isValidEmail : String → Bool) (db : Db) : Prop :=
  (∀ u ∈ db.users, isValidEmail u.email = true) ∧ (db.users.map User.email).Nodup

/-- The default of a migration field: either none, or the callable
`uuid.uuid4`, generating a fresh uuid4 per row. -/
inductive FieldDefault where
  | noDefault
  | uuid4
deriving DecidableEq, Repr

/-- A `CharField` as declared by the migration: max length, nullability,
and its default. -/
structure CharFieldSpec where
  maxLength : Nat
  nullable : Bool
  default : FieldDefault
deriving DecidableEq, Repr

/-- A schema operation of the migration file. -/
inductive MigrationOp where
  | alterModelOptions (model : String) (ordering : List String)
  | addField (model : String) (fieldName : String) (field : CharFieldSpec)
deriving DecidableEq, Repr

/-- Whether a migration operation adds a field. -/
def isAddField : MigrationOp → Bool
  | MigrationOp.addField _ _ _ => true
  | _ => false

/-- `Migration.dependencies` of `0010_auto_20180523_1540`. -/
def migration0010Dependencies : List (String × String) :=
  [("api", "0009_auto_20180523_0045")]

/-- `Migration.operations` of `0010_auto_20180523_1540`, in file order:
`AlterModelOptions(name='userpreference', options={'ordering': ('name',)})`,
`AddField(model_name='userpreference', name='description',
field=models.CharField(max_length=255, null=True))`, and
`AddField(model_name='userpreference', name='name',
field=models.CharField(default=uuid.uuid4, max_length=255))`. -/
def migration0010Operations : List MigrationOp :=
  [ MigrationOp.alterModelOptions "userpreference" ["name"],
    MigrationOp.addField "userpreference" "description"
      { maxLength := 255, nullable := true, default := FieldDefault.noDefault },
    MigrationOp.addField "userpreference" "name"
      { maxLength := 255, nullable := false, default := FieldDefault.uuid4 } ]

/-- A concrete environment used to exhibit behaviour on closed inputs. -/
def demoCtx : Ctx :=
  { locales := ["en_US.UTF-8", "de_DE.UTF-8"]
    currencies := ["USD", "EUR"]
    timezones := ["UTC", "America/New_York"]
    defaultCurrency := "USD"
    defaultTimezone := "UTC"
    defaultLocale := "en_US.UTF-8"
    pick := fun n => n }

/-- `demoCtx` with a default currency outside the currency enumeration, so
that default-preference creation fails after the user row is written. -/
def badCtx : Ctx :=
  { demoCtx with defaultCurrency := "XXX" }

/-- A small executable stand-in for the framework email-syntax predicate,
used only to instantiate witnesses. -/
def demoEmailValid (e : String) : Bool :=
  e.data.contains '@'

/-- The user created by `createUser demoCtx "carol" "carol@example.com"
(some "pw") emptyDb []`. -/
def uCarol : User :=
  { id := 0, username := "carol", email := "carol@example.com"
    password := "pw", uuid := "uuid-0" }

/-- The database after `createUser demoCtx "carol" "carol@example.com"
(some "pw") emptyDb []`. -/
def dbCarol : Db :=
  { users := [uCarol]
    prefs :=
      [{ userId := 0, name := "currency", value := "USD"
         description := "default preference" },
       { userId := 0, name := "timezone", value := "UTC"
         description := "default preference" },
       { userId := 0, name := "locale", value := "en_US.UTF-8"
         description := "default preference" }]
    tokens := [{ userId := 0, token := "uuid-1" }]
    customers := []
    memberships := []
    nextId := 1
    nextUuid := 2 }

/-- The trace of `createUser demoCtx "carol" "carol@example.com"
(some "pw") emptyDb []`. -/
def trCarol : List Event :=
  [Event.userCreated "carol" "carol@example.com",
   Event.prefCreated "currency" "USD",
   Event.prefCreated "timezone" "UTC",
   Event.prefCreated "locale" "en_US.UTF-8",
   Event.tokenCreated "carol" "uuid-1",
   Event.emailSent "carol" "carol@example.com" "uuid-0" "uuid-1"]

end Koku

namespace Koku

/-- C2: the code skips currency validation whenever the `name` value is a
run-time string equal to `'currency'` but not the interned literal, because
`_generic_validation` tests `data.get('name') is not field` (object
identity).  At such an input with an out-of-enumeration currency the claim
requires a `ValidationError`, yet `validate` succeeds; with the interned
literal as name, the same preference value is rejected. -/
theorem generic_validation_identity_bug :
    upsValidate demoCtx
        { name := some { val := "currency", interned := false }
          preference := some [("currency", "ZZZ")] } =
      Except.ok
        { name := some { val := "currency", interned := false }
          preference := some [("currency", "ZZZ")] }
    ∧ ¬ ("ZZZ" ∈ demoCtx.currencies)
    ∧ upsValidate demoCtx
        { name := some { val := "currency", interned := true }
          preference := some [("currency", "ZZZ")] } =
      Except.error (Err.validationError "currency" (some "ZZZ")) := by
  refine ⟨rfl, by decide, rfl⟩

/-- C9: whenever `UserPreferenceSerializer.validate` returns normally, the
value it returns is exactly the `data` dictionary it was given. -/
theorem ups_validate_identity (ctx : Ctx) (data : PrefData) :
    (upsValidate ctx data).isOk → upsValidate ctx data = Except.ok data := by
  intro h
  unfold upsValidate at h ⊢
  cases hl : validateLocale ctx data with
  | error e => simp [hl, Except.isOk, Except.toBool, bind, Except.bind] at h
  | ok u =>
    cases hc : validateCurrency ctx data with
    | error e => simp [hl, hc, Except.isOk, Except.toBool, bind, Except.bind] at h
    | ok u' =>
      cases ht : validateTimezone ctx data with
      | error e => simp [hl, hc, ht, Except.isOk, Except.toBool, bind, Except.bind] at h
      | ok u'' => simp [hl, hc, ht, bind, Except.bind, pure, Except.pure]

/-- Witness for C9 at a concrete input. -/
theorem ups_validate_identity_witness :
    upsValidate demoCtx
        { name := some { val := "timezone", interned := true }
          preference := some [("timezone", "UTC")] } =
      Except.ok
        { name := some { val := "timezone", interned := true }
          preference := some [("timezone", "UTC")] } :=
  ups_validate_identity demoCtx
    { name := some { val := "timezone", interned := true }
      preference := some [("timezone", "UTC")] } (by decide)

/-- C10: when the `name` value is none of `'locale'`, `'currency'`,
`'timezone'` (in particular also when the key is absent), every
`_generic_validation` call returns at the identity test and `validate`
accepts the input unchanged, whatever the preference value. -/
theorem ups_validate_other_names (ctx : Ctx) (data : PrefData)
    (h : ∀ s, data.name = some s →
      s.val ≠ "locale" ∧ s.val ≠ "currency" ∧ s.val ≠ "timezone") :
    upsValidate ctx data = Except.ok data := by
  have hlit : ∀ lit, lit = "locale" ∨ lit = "currency" ∨ lit = "timezone" →
      pyIsLit data.name lit = false := by
    intro lit hcase
    cases hn : data.name with
    | none => simp [pyIsLit]
    | some s =>
      have hs := h s hn
      simp only [pyIsLit, Bool.and_eq_false_iff]
      rcases hcase with h1 | h1 | h1 <;> subst h1
      · exact Or.inr (by simpa using hs.1)
      · exact Or.inr (by simpa using hs.2.1)
      · exact Or.inr (by simpa using hs.2.2)
  unfold upsValidate validateLocale validateCurrency validateTimezone genericValidation
  rw [hlit "locale" (Or.inl rfl), hlit "currency" (Or.inr (Or.inl rfl)),
    hlit "timezone" (Or.inr (Or.inr rfl))]
  rfl

/-- Witness for C10 at a concrete input with an arbitrary bad value. -/
theorem ups_validate_other_names_witness :
    upsValidate demoCtx
        { name := some { val := "color", interned := false }
          preference := some [("color", "plaid")] } =
      Except.ok
        { name := some { val := "color", interned := false }
          preference := some [("color", "plaid")] } :=
  ups_validate_other_names demoCtx
    { name := some { val := "color", interned := false }
      preference := some [("color", "plaid")] }
    (by intro s hs; cases hs; refine ⟨by decide, by decide, by decide⟩)

/-- Helper: a successful `createOnePreference` appends exactly one
preference row and one trace event. -/
theorem createOnePreference_ok (ctx : Ctx) (user : User) (name value : String)
    (db : Db) (tr : List Event) (db' : Db) (tr' : List Event)
    (h : createOnePreference ctx user name value db tr = Except.ok (db', tr')) :
    db' = { db with prefs := db.prefs ++
        [{ userId := user.id, name := name, value := value
           description := "default preference" }] }
    ∧ tr' = tr ++ [Event.prefCreated name value] := by
  unfold createOnePreference at h
  split at h
  · exact Except.noConfusion h
  · simp only [Except.ok.injEq, Prod.mk.injEq] at h
    exact ⟨h.1.symm, h.2.symm⟩

/-- Helper: a successful `createDefaultPreferences` appends exactly the
three default rows (currency, timezone, locale) and their trace events. -/
theorem createDefaultPreferences_ok (ctx : Ctx) (user : User) (db : Db)
    (tr : List Event) (db' : Db) (tr' : List Event)
    (h : createDefaultPreferences ctx user db tr = Except.ok (db', tr')) :
    db' = { db with prefs := db.prefs ++
        [{ userId := user.id, name := "currency", value := ctx.defaultCurrency
           description := "default preference" },
         { userId := user.id, name := "timezone", value := ctx.defaultTimezone
           description := "default preference" },
         { userId := user.id, name := "locale", value := ctx.defaultLocale
           description := "default preference" }] }
    ∧ tr' = tr ++
        [Event.prefCreated "currency" ctx.defaultCurrency,
         Event.prefCreated "timezone" ctx.defaultTimezone,
         Event.prefCreated "locale" ctx.defaultLocale] := by
  unfold createDefaultPreferences at h
  split at h
  · exact Except.noConfusion h
  · rename_i db1 tr1 h1
    split at h
    · exact Except.noConfusion h
    · rename_i db2 tr2 h2
      obtain ⟨e1, f1⟩ := createOnePreference_ok ctx user _ _ _ _ _ _ h1
      obtain ⟨e2, f2⟩ := createOnePreference_ok ctx user _ _ _ _ _ _ h2
      obtain ⟨e3, f3⟩ := createOnePreference_ok ctx user _ _ _ _ _ _ h
      subst e1 f1 e2 f2 e3 f3
      constructor
      · simp
      · simp

/-- Helper: full characterization of a successful `createUser` run. -/
theorem createUser_ok_elim (ctx : Ctx) (un em : String) (pw : Option String)
    (db : Db) (tr : List Event) (u : User) (db' : Db) (tr' : List Event)
    (h : createUser ctx un em pw db tr = Except.ok (u, db', tr')) :
    u = { id := db.nextId, username := un, email := em
          password := pickPassword ctx pw
          uuid := freshUuid db.nextUuid }
    ∧ db' = { db with
        users := db.users ++ [u]
        prefs := db.prefs ++
          [{ userId := db.nextId, name := "currency", value := ctx.defaultCurrency
             description := "default preference" },
           { userId := db.nextId, name := "timezone", value := ctx.defaultTimezone
             description := "default preference" },
           { userId := db.nextId, name := "locale", value := ctx.defaultLocale
             description := "default preference" }]
        tokens := db.tokens ++
          [{ userId := db.nextId, token := freshUuid (db.nextUuid + 1) }]
        nextId := db.nextId + 1
        nextUuid := db.nextUuid + 2 }
    ∧ tr' = tr ++
        [Event.userCreated un em,
         Event.prefCreated "currency" ctx.defaultCurrency,
         Event.prefCreated "timezone" ctx.defaultTimezone,
         Event.prefCreated "locale" ctx.defaultLocale,
         Event.tokenCreated un (freshUuid (db.nextUuid + 1)),
         Event.emailSent un em (freshUuid db.nextUuid) (freshUuid (db.nextUuid + 1))]
    ∧ db.users.any (fun v => v.username == un) = false := by
  simp only [createUser] at h
  split at h
  · exact Except.noConfusion h
  · rename_i hdup
    split at h
    · exact Except.noConfusion h
    · rename_i db2 tr2 hpref
      obtain ⟨hdb2, htr2⟩ := createDefaultPreferences_ok _ _ _ _ _ _ hpref
      subst hdb2 htr2
      simp only [Except.ok.injEq, Prod.mk.injEq] at h
      obtain ⟨hu, hdb, htr⟩ := h
      subst hu
      refine ⟨rfl, ?_, ?_, by simpa using hdup⟩
      · rw [← hdb]
      · rw [← htr]
        simp

/-- Helper: a successful `customerCreateBody` stores the derived schema
name on the customer row and appends exactly the owner user row. -/
theorem customerCreateBody_ok (ctx : Ctx) (data : CustomerData) (db : Db)
    (tr : List Event) (c : Customer) (db' : Db) (tr' : List Event)
    (h : customerCreateBody ctx data db tr = Except.ok (c, db', tr')) :
    c.schemaName = createSchemaName data.name
    ∧ c.name = data.name
    ∧ db'.users = db.users ++
        [{ id := db.nextId, username := data.owner.username
           email := data.owner.email
           password := pickPassword ctx data.owner.password
           uuid := freshUuid db.nextUuid }] := by
  simp only [customerCreateBody] at h
  split at h
  · exact Except.noConfusion h
  · rename_i owner db1 tr1 hcu
    obtain ⟨hu, hdb1, htr1, -⟩ := createUser_ok_elim _ _ _ _ _ _ _ _ _ hcu
    simp only [Except.ok.injEq, Prod.mk.injEq] at h
    obtain ⟨hc, hdb', htr'⟩ := h
    subst hc
    refine ⟨rfl, rfl, ?_⟩
    rw [← hdb', hdb1, hu]

/-- C1 counterexample: on a name containing an underscore, the schema name
computed by `_create_schema_name` differs from the spec's description (all
non-word characters stripped, then lowercased), because the regex class
`[\W_]` also strips underscores, which are word characters. -/
theorem schema_name_underscore_counterexample :
    createSchemaName "Acme_Corp" = "acmecorp"
    ∧ specSchemaName "Acme_Corp" = "acme_corp"
    ∧ ¬ (createSchemaName "Acme_Corp" = specSchemaName "Acme_Corp") :=
  ⟨rfl, rfl, by decide⟩

/-- C1 (amended): every customer created through
`CustomerSerializer.create` stores a `schema_name` equal to the customer
name with all non-word characters AND underscores stripped, then
lowercased — a deterministic function of the name alone. -/
theorem customer_schema_name (ctx : Ctx) (data : CustomerData) (db : Db)
    (tr : List Event) (c : Customer)
    (h : (customerSerializerCreate ctx data db tr).1 = Except.ok c) :
    c.schemaName = createSchemaName data.name
    ∧ c.schemaName =
        String.mk ((data.name.data.filter
          (fun ch => pyIsWordChar ch && !(ch == '_'))).map Char.toLower) := by
  have hpred : ∀ ch : Char,
      (!(inClassNonWordOrUnderscore ch)) = (pyIsWordChar ch && !(ch == '_')) := by
    intro ch
    simp [inClassNonWordOrUnderscore, Bool.not_or]
  unfold customerSerializerCreate at h
  cases hb : customerCreateBody ctx data db tr with
  | error e =>
      rw [hb] at h
      exact Except.noConfusion h
  | ok x =>
      obtain ⟨c0, db1, tr1⟩ := x
      rw [hb] at h
      have hc : c0 = c := by simpa using h
      subst hc
      obtain ⟨hs, -, -⟩ := customerCreateBody_ok _ _ _ _ _ _ _ hb
      refine ⟨hs, ?_⟩
      rw [hs]
      unfold createSchemaName
      rw [List.filter_congr (fun a _ => hpred a)]

/-- Witness for C1 at a concrete punctuated, underscored name. -/
theorem customer_schema_name_witness :
    (Customer.mk 1 "Acme_Corp, Inc." "acmecorpinc" 0).schemaName =
        createSchemaName "Acme_Corp, Inc."
    ∧ (Customer.mk 1 "Acme_Corp, Inc." "acmecorpinc" 0).schemaName =
        String.mk ((("Acme_Corp, Inc." : String).data.filter
          (fun ch => pyIsWordChar ch && !(ch == '_'))).map Char.toLower) :=
  customer_schema_name demoCtx
    { name := "Acme_Corp, Inc."
      owner := { username := "alice", email := "alice@example.com"
                 password := some "pw" } }
    emptyDb [] (Customer.mk 1 "Acme_Corp, Inc." "acmecorpinc" 0) (by rfl)

/-- C3: `CustomerSerializer.create` runs under `transaction.atomic`, so
whenever any step of the creation errors, the database is exactly as it
was before the call: no owner user, preference, token, customer row or
membership is persisted. -/
theorem customer_create_atomic (ctx : Ctx) (data : CustomerData) (db : Db)
    (tr : List Event) (e : Err)
    (h : (customerSerializerCreate ctx data db tr).1 = Except.error e) :
    (customerSerializerCreate ctx data db tr).2.1 = db := by
  unfold customerSerializerCreate at h ⊢
  cases hb : customerCreateBody ctx data db tr with
  | ok x =>
      obtain ⟨c0, db1, tr1⟩ := x
      rw [hb] at h
      exact Except.noConfusion h
  | error e2 =>
      rfl

/-- Witness for C3: with a default currency outside the currency
enumeration, creation fails after the owner row was written inside the
transaction, and the database comes back unchanged. -/
theorem customer_create_atomic_witness :
    (customerSerializerCreate badCtx
        { name := "Acme, Inc."
          owner := { username := "alice", email := "alice@example.com"
                     password := some "pw" } }
        emptyDb []).2.1 = emptyDb :=
  customer_create_atomic badCtx
    { name := "Acme, Inc."
      owner := { username := "alice", email := "alice@example.com"
                 password := some "pw" } }
    emptyDb [] (Err.validationError "currency" (some "XXX")) (by rfl)

/-- C4: a successful `_create_user` run creates exactly one user row and
exactly one reset-token row tied to that user, and the three default
preference rows (currency, timezone, locale) are created immediately
after the user row and before the reset token. -/
theorem create_user_lifecycle (ctx : Ctx) (un em : String) (pw : Option String)
    (db : Db) (tr : List Event) (u : User) (db' : Db) (tr' : List Event)
    (h : createUser ctx un em pw db tr = Except.ok (u, db', tr')) :
    db'.users = db.users ++ [u]
    ∧ ∃ token,
        db'.tokens = db.tokens ++ [{ userId := u.id, token := token }]
        ∧ db'.prefs = db.prefs ++
            [{ userId := u.id, name := "currency", value := ctx.defaultCurrency
               description := "default preference" },
             { userId := u.id, name := "timezone", value := ctx.defaultTimezone
               description := "default preference" },
             { userId := u.id, name := "locale", value := ctx.defaultLocale
               description := "default preference" }]
        ∧ tr' = tr ++
            [Event.userCreated un em,
             Event.prefCreated "currency" ctx.defaultCurrency,
             Event.prefCreated "timezone" ctx.defaultTimezone,
             Event.prefCreated "locale" ctx.defaultLocale,
             Event.tokenCreated un token,
             Event.emailSent un em u.uuid token] := by
  obtain ⟨hu, hdb, htr, -⟩ := createUser_ok_elim _ _ _ _ _ _ _ _ _ h
  subst hu hdb htr
  exact ⟨by simp, freshUuid (db.nextUuid + 1), by simp, by simp, by simp⟩

/-- Witness for C4 at a concrete successful registration. -/
theorem create_user_lifecycle_witness :
    dbCarol.users = emptyDb.users ++ [uCarol]
    ∧ ∃ token,
        dbCarol.tokens = emptyDb.tokens ++ [{ userId := uCarol.id, token := token }]
        ∧ dbCarol.prefs = emptyDb.prefs ++
            [{ userId := uCarol.id, name := "currency"
               value := demoCtx.defaultCurrency
               description := "default preference" },
             { userId := uCarol.id, name := "timezone"
               value := demoCtx.defaultTimezone
               description := "default preference" },
             { userId := uCarol.id, name := "locale"
               value := demoCtx.defaultLocale
               description := "default preference" }]
        ∧ trCarol = [] ++
            [Event.userCreated "carol" "carol@example.com",
             Event.prefCreated "currency" demoCtx.defaultCurrency,
             Event.prefCreated "timezone" demoCtx.defaultTimezone,
             Event.prefCreated "locale" demoCtx.defaultLocale,
             Event.tokenCreated "carol" token,
             Event.emailSent "carol" "carol@example.com" uCarol.uuid token] :=
  create_user_lifecycle demoCtx "carol" "carol@example.com" (some "pw")
    emptyDb [] uCarol dbCarol trCarol (by rfl)

/-- C5: a successful `_create_user` run calls `new_user_login_email`
exactly once, with the created user's username, email, uuid (as a string)
and the value of the newly created reset token (as a string), in that
order. -/
theorem new_user_login_email_args (ctx : Ctx) (un em : String)
    (pw : Option String) (db : Db) (u : User) (db' : Db) (tr' : List Event)
    (h : createUser ctx un em pw db [] = Except.ok (u, db', tr')) :
    ∃ token,
      db'.tokens = db.tokens ++ [{ userId := u.id, token := token }]
      ∧ tr'.filter isEmailEvent = [Event.emailSent un em u.uuid token] := by
  obtain ⟨hu, hdb, htr, -⟩ := createUser_ok_elim _ _ _ _ _ _ _ _ _ h
  subst hu hdb htr
  refine ⟨freshUuid (db.nextUuid + 1), by simp, ?_⟩
  simp [isEmailEvent]

/-- Witness for C5 at a concrete successful registration. -/
theorem new_user_login_email_args_witness :
    ∃ token,
      dbCarol.tokens = emptyDb.tokens ++ [{ userId := uCarol.id, token := token }]
      ∧ trCarol.filter isEmailEvent =
          [Event.emailSent "carol" "carol@example.com" uCarol.uuid token] :=
  new_user_login_email_args demoCtx "carol" "carol@example.com" (some "pw")
    emptyDb uCarol dbCarol trCarol (by rfl)

/-- C7: the migration's additive operations are exactly the nullable
255-character `description` field and the 255-character `name` field
defaulting to a fresh uuid4, both on `userpreference`; the only other
operation is the default ordering of `userpreference` rows by name. -/
theorem migration_0010_shape :
    migration0010Operations.filter isAddField =
      [MigrationOp.addField "userpreference" "description"
        { maxLength := 255, nullable := true, default := FieldDefault.noDefault },
       MigrationOp.addField "userpreference" "name"
        { maxLength := 255, nullable := false, default := FieldDefault.uuid4 }]
    ∧ migration0010Operations.filter (fun op => !(isAddField op)) =
      [MigrationOp.alterModelOptions "userpreference" ["name"]] :=
  ⟨rfl, rfl⟩

set_option maxRecDepth 8000 in
/-- C8: with an absent or empty password, `_create_user` stores a
generated temporary password of exactly 10 characters, each drawn from
the fixed sequence of `_gen_temp_password`; a non-empty supplied password
is stored unchanged. -/
theorem temp_password_rules (ctx : Ctx) :
    ((genTempPassword ctx.pick).length = 10
      ∧ ∀ c ∈ (genTempPassword ctx.pick).data, c ∈ passwordChoices.data)
    ∧ (∀ un em p db tr u db' tr', ¬ (p = "") →
        createUser ctx un em (some p) db tr = Except.ok (u, db', tr') →
        u.password = p)
    ∧ (∀ un em pw db tr u db' tr', (pw = none ∨ pw = some "") →
        createUser ctx un em pw db tr = Except.ok (u, db', tr') →
        u.password = genTempPassword ctx.pick) := by
  refine ⟨⟨?_, ?_⟩, ?_, ?_⟩
  · simp only [genTempPassword, String.length, List.length_map, List.length_range]
  · intro c hc
    simp only [genTempPassword] at hc
    obtain ⟨i, hi, rfl⟩ := List.mem_map.1 hc
    have hpos : 0 < passwordChoices.data.length := by decide
    have hlt : ctx.pick i % passwordChoices.data.length < passwordChoices.data.length :=
      Nat.mod_lt _ hpos
    rw [List.getD_eq_getElem _ _ hlt]
    exact List.getElem_mem _
  · intro un em p db tr u db' tr' hp h
    obtain ⟨hu, -, -, -⟩ := createUser_ok_elim _ _ _ _ _ _ _ _ _ h
    subst hu
    simp [pickPassword, hp]
  · intro un em pw db tr u db' tr' hpw h
    obtain ⟨hu, -, -, -⟩ := createUser_ok_elim _ _ _ _ _ _ _ _ _ h
    subst hu
    rcases hpw with h1 | h1 <;> subst h1 <;> simp [pickPassword]

/-- Witness for C8: a supplied non-empty password is stored unchanged. -/
theorem temp_password_rules_witness :
    uCarol.password = "pw" :=
  (temp_password_rules demoCtx).2.1 "carol" "carol@example.com" "pw"
    emptyDb [] uCarol dbCarol trCarol (by decide) (by rfl)

/-- Helper: a passing email-field validation means the email is
syntactically valid and not yet stored for any user. -/
theorem validateUserEmailField_ok (v : String → Bool) (d : OwnerData) (db : Db)
    (h : validateUserEmailField v d db = Except.ok ()) :
    v d.email = true ∧ db.users.any (fun u => u.email == d.email) = false := by
  unfold validateUserEmailField at h
  split at h
  · exact Except.noConfusion h
  · split at h
    · exact Except.noConfusion h
    · rename_i h1 h2
      exact ⟨by simpa using h1, by simpa using h2⟩

/-- Helper: a syntactically invalid or already-stored email makes the
email-field validation fail with the validation error, before any write. -/
theorem validateUserEmailField_bad (v : String → Bool) (d : OwnerData) (db : Db)
    (h : v d.email = false ∨ d.email ∈ db.users.map User.email) :
    validateUserEmailField v d db =
      Except.error (Err.validationError "email" (some d.email)) := by
  unfold validateUserEmailField
  cases hv : v d.email with
  | false => simp [hv]
  | true =>
      have hdup : db.users.any (fun u => u.email == d.email) = true := by
        rcases h with h1 | h1
        · rw [hv] at h1
          exact absurd h1 (by simp)
        · obtain ⟨u, hu, he⟩ := List.mem_map.1 h1
          exact List.any_eq_true.2 ⟨u, hu, by simp [he]⟩
      simp [hv, hdup]

/-- Helper: appending a user with a valid, fresh email preserves the
email invariant. -/
theorem emailsOk_append (v : String → Bool) (db : Db) (u : User)
    (hok : emailsOk v db) (hv : v u.email = true)
    (hdup : db.users.any (fun w => w.email == u.email) = false) :
    (∀ w ∈ db.users ++ [u], v w.email = true)
    ∧ ((db.users ++ [u]).map User.email).Nodup := by
  obtain ⟨h1, h2⟩ := hok
  simp only [List.any_eq_false] at hdup
  constructor
  · intro w hw
    rcases List.mem_append.1 hw with hw | hw
    · exact h1 w hw
    · have : w = u := by simpa using hw
      subst this
      exact hv
  · rw [List.map_append]
    refine List.Nodup.append h2 (by simp) ?_
    intro a ha hb
    have hb' : a = u.email := by simpa using hb
    subst hb'
    obtain ⟨w, hw, he⟩ := List.mem_map.1 ha
    exact hdup w hw (by simp [he])

/-- Helper: a single serializer create request preserves the email
invariant, whatever its outcome. -/
theorem runOp_emailsOk (v : String → Bool) (ctx : Ctx) (db : Db) (op : Op)
    (h : emailsOk v db) : emailsOk v (runOp v ctx db op) := by
  cases op with
  | createUserOp d =>
      show emailsOk v ((userSerializerSave v ctx d db []).2.1)
      unfold userSerializerSave
      cases hval : validateUserEmailField v d db with
      | error e => exact h
      | ok u0 =>
          cases u0
          obtain ⟨hv, hdup⟩ := validateUserEmailField_ok v d db hval
          unfold userSerializerCreate
          cases hcu : createUser ctx d.username d.email d.password db [] with
          | error e => exact h
          | ok x =>
              obtain ⟨u, db', tr'⟩ := x
              obtain ⟨hu, hdb, -, -⟩ := createUser_ok_elim _ _ _ _ _ _ _ _ _ hcu
              have husers : db'.users = db.users ++ [u] := by rw [hdb]
              have hmail : u.email = d.email := by rw [hu]
              show emailsOk v db'
              unfold emailsOk
              rw [husers]
              exact emailsOk_append v db u h (by rw [hmail]; exact hv)
                (by rw [hmail]; exact hdup)
  | createCustomerOp cd =>
      show emailsOk v ((customerSerializerSave v ctx cd db []).2.1)
      unfold customerSerializerSave
      cases hval : validateUserEmailField v cd.owner db with
      | error e => exact h
      | ok u0 =>
          cases u0
          obtain ⟨hv, hdup⟩ := validateUserEmailField_ok v cd.owner db hval
          unfold customerSerializerCreate
          cases hb : customerCreateBody ctx cd db [] with
          | error e => exact h
          | ok x =>
              obtain ⟨c, db', tr'⟩ := x
              obtain ⟨-, -, husers⟩ := customerCreateBody_ok _ _ _ _ _ _ _ hb
              show emailsOk v db'
              unfold emailsOk
              rw [husers]
              exact emailsOk_append v db _ h hv hdup

/-- C6: user creation through the serializers rejects, with the framework
validation error and without touching the database, every syntactically
invalid email and every email already belonging to a stored user; hence
any database whose user emails are valid and pairwise distinct keeps that
invariant under every sequence of serializer create requests. -/
theorem serializers_email_invariant (v : String → Bool) (ctx : Ctx) :
    (∀ d db tr, (v d.email = false ∨ d.email ∈ db.users.map User.email) →
        userSerializerSave v ctx d db tr =
          (Except.error (Err.validationError "email" (some d.email)), db, tr))
    ∧ (∀ cd db tr,
        (v cd.owner.email = false ∨ cd.owner.email ∈ db.users.map User.email) →
        customerSerializerSave v ctx cd db tr =
          (Except.error (Err.validationError "email" (some cd.owner.email)), db, tr))
    ∧ (∀ db ops, emailsOk v db → emailsOk v (runOps v ctx db ops)) := by
  refine ⟨?_, ?_, ?_⟩
  · intro d db tr h
    unfold userSerializerSave
    rw [validateUserEmailField_bad v d db h]
  · intro cd db tr h
    unfold customerSerializerSave
    rw [validateUserEmailField_bad v cd.owner db h]
  · intro db ops
    induction ops generalizing db with
    | nil => intro h; exact h
    | cons op ops ih =>
        intro h
        exact ih (runOp v ctx db op) (runOp_emailsOk v ctx db op h)

/-- Witness for C6: a syntactically invalid email is rejected with the
validation error and the database is untouched. -/
theorem serializers_email_invariant_witness :
    userSerializerSave demoEmailValid demoCtx
        { username := "bob", email := "bademail", password := none }
        emptyDb [] =
      (Except.error (Err.validationError "email" (some "bademail")), emptyDb, []) :=
  (serializers_email_invariant demoEmailValid demoCtx).1
    { username := "bob", email := "bademail", password := none }
    emptyDb [] (Or.inl (by decide))

end Koku
